import Mathlib

/-!
Verification of the minijinja Python binding (minijinja-py) against its
specification.  The pure Python layer (`python/minijinja/__init__.py`,
`python/minijinja/_internal.py`) is embedded directly; the Rust engine core
behind `_lowlevel` is not part of the repository sources, so the parts of it
that the claims need are modelled from the specification and from the
observable contract pinned by the repository's own tests
(`tests/test_basic.py`).
-/

instance {e a : Type} [DecidableEq e] [DecidableEq a] :
    DecidableEq (Except e a) := fun x y =>
  match x, y with
  | .ok u, .ok v =>
    if h : u = v then .isTrue (by rw [h]) else .isFalse (by simp [h])
  | .error u, .error v =>
    if h : u = v then .isTrue (by rw [h]) else .isFalse (by simp [h])
  | .ok _, .error _ => .isFalse (by simp)
  | .error _, .ok _ => .isFalse (by simp)

namespace Minijinja

/-- Substring test on character lists: `listContainsSub s pat` is true iff
`pat` occurs contiguously inside `s`. -/
def listContainsSub : List Char → List Char → Bool
  | _, [] => true
  | [], _ :: _ => false
  | c :: cs, p :: ps =>
    (List.isPrefixOf (p :: ps) (c :: cs)) || listContainsSub cs (p :: ps)

/-- `strContains s pat`: does the string `s` contain `pat` as a substring?
(Models Python's `pat in s`.) -/
def strContains (s pat : String) : Bool :=
  listContainsSub s.data pat.data

/-! ## Diagnostic model

`ErrorInfo` mirrors the info object the Rust binding attaches to errors: the
fields read by the `TemplateError` properties in
`python/minijinja/__init__.py` lines 134-187 (`kind`, `name`, `detail`,
`line`, `range`, `template_source`, `full_description`) plus the
`description` field read by `make_error` in `python/minijinja/_internal.py`. -/
structure ErrorInfo where
  kind : String
  name : Option String
  detail : Option String
  line : Option Nat
  range : Option (Nat × Nat)
  template_source : Option String
  description : String
  full_description : String
deriving DecidableEq

/-- `TemplateError` from `python/minijinja/__init__.py`: a message (the Python
`args[0]`) and an optional attached `_info` object (`None` when the error was
constructed directly, set by `make_error`). -/
structure TemplateError where
  message : String
  _info : Option ErrorInfo
deriving DecidableEq

/-- `TemplateError.__init__`: stores the message and sets `_info = None`. -/
def TemplateError.new (message : String) : TemplateError :=
  { message := message, _info := none }

/-- The `kind` property: `"Unknown"` when `_info is None`, else `_info.kind`. -/
def TemplateError.kind (e : TemplateError) : String :=
  match e._info with
  | none => "Unknown"
  | some i => i.kind

/-- The `name` property: `None` when `_info is None`, else `_info.name`. -/
def TemplateError.name (e : TemplateError) : Option String :=
  match e._info with
  | none => none
  | some i => i.name

/-- The `detail` property: `None` when `_info is None`, else `_info.detail`. -/
def TemplateError.detail (e : TemplateError) : Option String :=
  match e._info with
  | none => none
  | some i => i.detail

/-- The `line` property: `None` when `_info is None`, else `_info.line`. -/
def TemplateError.line (e : TemplateError) : Option Nat :=
  match e._info with
  | none => none
  | some i => i.line

/-- The `range` property: `None` when `_info is None`, else `_info.range`. -/
def TemplateError.range (e : TemplateError) : Option (Nat × Nat) :=
  match e._info with
  | none => none
  | some i => i.range

/-- The `template_source` property: `None` when `_info is None`, else read
from the info object. -/
def TemplateError.templateSource (e : TemplateError) : Option String :=
  match e._info with
  | none => none
  | some i => i.template_source

/-- `TemplateError.__str__`: the full description when info is attached,
otherwise the short message. -/
def TemplateError.str (e : TemplateError) : String :=
  match e._info with
  | none => e.message
  | some i => i.full_description

/-- `make_error` from `python/minijinja/_internal.py`: builds a
`TemplateError` whose message is `info.description` and attaches the info. -/
def make_error (info : ErrorInfo) : TemplateError :=
  { message := info.description, _info := some info }

/-- Modelled from the spec: the expression parser lives in the Rust engine
core, which is not under the repository sources.  Section 4.5 fixes the
diagnostic layout (excerpt with a greater-than-style line marker followed by
the message) and section 8 pins the diagnostic produced for evaluating the
expression source text consisting of a one, a space and a plus sign: kind
SyntaxError, line 1, range (2, 3), template name a bracketed word
expression, a message containing the words unexpected end of input.  This
constant is that diagnostic. -/
def syntaxErrorOnePlus : ErrorInfo :=
  { kind := "SyntaxError"
    name := some "<expression>"
    detail := some "unexpected end of input, expected expression"
    line := some 1
    range := some (2, 3)
    template_source := some "1 +"
    description :=
      "syntax error: unexpected end of input, expected expression (in <expression>:1)"
    full_description :=
      "syntax error: unexpected end of input, expected expression (in <expression>:1)\n --------------------- <expression> ---------------------\n   1 > 1 +\n     i    ^^^ unexpected end of input, expected expression\n ---------------------------------------------------------" }

/-! ## Escaping and safe markup

Embeds the markupsafe-fallback branch of `python/minijinja/__init__.py`
lines 107-125: the `Markup` subclass of `str` whose `__html__` returns
itself, the `escape` function, and `safe`.  A Python value relevant to these
functions is either a plain string-like value with no `__html__` attribute, a
`Markup`, or an arbitrary object defining `__html__` that returns some other
value. -/
inductive PyValue where
  | plain (s : String)
  | markup (s : String)
  | withHtml (r : PyValue)
deriving DecidableEq

/-- `html.escape` applied to one character (with the default `quote=True`):
ampersand, angle brackets, the double quote (code 34) and the single quote
(code 39) are replaced by entities. -/
def escapeChar (c : Char) : String :=
  if c = '&' then "&amp;"
  else if c = '<' then "&lt;"
  else if c = '>' then "&gt;"
  else if c.toNat = 34 then "&quot;"
  else if c.toNat = 39 then "&#x27;"
  else String.singleton c

/-- Python's `html.escape` (the `_escape` imported in the fallback branch). -/
def htmlEscape (s : String) : String :=
  String.join (s.data.map escapeChar)

/-- The string content of a value as the engine sees it (`str(value)`; for a
value with `__html__`, the content of what `__html__` yields). -/
def PyValue.strOf : PyValue → String
  | .plain s => s
  | .markup s => s
  | .withHtml r => r.strOf

/-- The fallback `escape` from `python/minijinja/__init__.py` lines 116-120:
if the value has an `__html__` attribute the result of calling it is
returned (`Markup.__html__` returns the `Markup` itself); otherwise the
stringified value is HTML-escaped and wrapped in `Markup`. -/
def escape : PyValue → PyValue
  | .plain s => .markup (htmlEscape s)
  | .markup s => .markup s
  | .withHtml r => r

/-- `safe` from `python/minijinja/__init__.py` line 123-125: wraps the string
in `Markup`. -/
def safe (s : String) : PyValue := .markup s

/-- Does the value carry the safe-HTML marker (an `__html__` attribute)?
`Markup` and any object defining `__html__` do; a plain string does not. -/
def PyValue.isSafe : PyValue → Bool
  | .plain _ => false
  | .markup _ => true
  | .withHtml _ => true

/-- `escape (escape v) = escape v` is guaranteed to hold only on values whose
`__html__`, when defined, yields a `Markup`: plain values, `Markup` values,
and `__html__`-carrying objects returning a `Markup`. -/
def goodHtml : PyValue → Bool
  | .withHtml (.markup _) => true
  | .withHtml _ => false
  | _ => true

/-! ## Template bodies and rendering of interpolated values

The template grammar is out of scope of the spec (section 1); a parsed
template body is modelled as the list of its literal segments and variable
interpolations. -/
inductive Node where
  | lit (s : String)
  | var (n : String)
deriving DecidableEq

/-- The autoescape mode decided once per render (spec section 4.6): no
escaping, or HTML escaping. -/
inductive AutoMode where
  | noEscape
  | html
deriving DecidableEq

/-- Modelled from the spec: the engine core's emission of one interpolated
value (not under the repository sources).  Section 4.6: under an active
escaping mode a value explicitly marked safe bypasses escaping; an unmarked
value is escaped.  Under mode none nothing is escaped. -/
def emitValue (mode : AutoMode) (v : PyValue) : String :=
  match mode with
  | .noEscape => v.strOf
  | .html => if v.isSafe then v.strOf else htmlEscape v.strOf

/-- Modelled from the spec: rendering a parsed body under an autoescape mode
against a context of values; an unresolved variable renders as the empty
string (the engine's lenient undefined default, pinned by
`tests/test_basic.py::test_finalizer` rendering a bracketed missing
variable to an empty pair of brackets). -/
def renderNodes (mode : AutoMode) (ctx : List (String × PyValue)) :
    List Node → String
  | [] => ""
  | .lit s :: rest => s ++ renderNodes mode ctx rest
  | .var n :: rest =>
    (match List.lookup n ctx with
     | some v => emitValue mode v
     | none => "") ++ renderNodes mode ctx rest

/-! ## Template resolver and cache -/

/-- Modelled from the spec: the environment state kept by the Rust engine
core behind `_lowlevel` (not under the repository sources) as far as
template resolution is concerned (spec section 4.1): the installed loader,
the template cache keyed by name, and the reload-before-render flag.
`calls` is ghost instrumentation recording every loader invocation in order,
mirroring the `called` list of `tests/test_basic.py::test_loader`. -/
structure Environment where
  loader : String → Option String
  cache : List (String × String)
  calls : List String
  reload_before_render : Bool

/-- A fresh environment with an installed loader, empty cache, and
reload-before-render off (the defaults of `Environment.__init__`). -/
def freshEnv (l : String → Option String) : Environment :=
  { loader := l, cache := [], calls := [], reload_before_render := false }

/-- `reload()`: clears the entire cache, leaving the loader in place. -/
def envReload (e : Environment) : Environment :=
  { e with cache := [] }

/-- Assigning `env.loader`: replaces the loader.  The observable contract is
pinned by `tests/test_basic.py::test_loader` lines 157-159: after the
assignment, rendering an already-cached name does not invoke the loader (the
`called` list is unchanged), so replacement leaves the cache intact. -/
def setLoader (e : Environment) (l : String → Option String) : Environment :=
  { e with loader := l }

/-- Modelled from the spec: `render_template` as far as resolution is
concerned (section 4.1).  With reload-before-render on, the cache is cleared
first.  A cached name is served from the cache without touching the loader;
on a miss the loader is invoked (recorded in `calls`) and a found source is
cached.  A loader returning the absence signal makes resolution fail with
TemplateNotFound, here the `Except.error` case.  The body of a template from
these tests is a pure literal, so the rendered output is its source text. -/
def renderTemplate (e : Environment) (n : String) :
    Except Unit String × Environment :=
  let e := if e.reload_before_render then { e with cache := [] } else e
  match List.lookup n e.cache with
  | some src => (.ok src, e)
  | none =>
    let e := { e with calls := e.calls ++ [n] }
    match e.loader n with
    | some src => (.ok src, { e with cache := e.cache ++ [(n, src)] })
    | none => (.error (), e)

/-! ## Autoescape decision -/

/-- Modelled from the spec: the once-per-render autoescape decision (section
4.6), performed by the Rust engine core (not under the repository sources).
With no callback configured the mode is none.  A callback failure must not
abort the render: the failure goes to the out-of-band diagnostic channel
(the second component, mirroring `sys.unraisablehook` captured in
`tests/test_basic.py::test_autoescape`) and the mode falls back to none. -/
def decideAutoEscape (cb : Option (String → Except String AutoMode))
    (name : String) : AutoMode × List String :=
  match cb with
  | none => (.noEscape, [])
  | some f =>
    match f name with
    | .ok m => (m, [])
    | .error e => (.noEscape, [e])

/-- Modelled from the spec: a render of a parsed body under the decided
autoescape mode.  The result is an `Except` (the render as a whole may fail
for other reasons) paired with the out-of-band diagnostics; an autoescape
callback failure leaves the render on the `ok` path. -/
def renderWithAutoEscape (cb : Option (String → Except String AutoMode))
    (name : String) (ctx : List (String × PyValue)) (body : List Node) :
    Except String String × List String :=
  let (mode, diags) := decideAutoEscape cb name
  (.ok (renderNodes mode ctx body), diags)

/-! ## Finalizer dispatch -/

/-- The runtime values flowing through the finalizer in
`tests/test_basic.py::test_finalizer`: the undefined value (a variable with
no binding), Python `None`, strings, and bytes. -/
inductive RValue where
  | undef
  | pyNone
  | str (s : String)
  | bytes (b : List Nat)
deriving DecidableEq

/-- What a finalizer callback can produce (spec section 4.3): a replacement
value, the distinguished not-applicable signal (Python `NotImplemented`,
meaning fall back to the default pass-through), or a hard failure. -/
inductive FinResult where
  | value (v : RValue)
  | notApplicable
  | raise (e : String)
deriving DecidableEq

/-- One lowercase hex digit. -/
def hexDigit (n : Nat) : Char :=
  if n < 10 then Char.ofNat (48 + n) else Char.ofNat (87 + n)

/-- `binascii.b2a_hex` decoded to a string: two lowercase hex digits per
byte. -/
def hexOfBytes (b : List Nat) : String :=
  String.mk (b.flatMap (fun x => [hexDigit (x / 16 % 16), hexDigit (x % 16)]))

/-- Modelled from the spec: the engine core's default stringification of a
value written to output (not under the repository sources).  An undefined
value renders as the empty string in the engine's lenient default mode;
bytes render as their characters. -/
def RValue.stringify : RValue → String
  | .undef => ""
  | .pyNone => "none"
  | .str s => s
  | .bytes b => String.mk (b.map Char.ofNat)

/-- The finalizer of `tests/test_basic.py::test_finalizer`: maps `None` to
the empty string, bytes to their hex encoding, and signals not-applicable
for everything else. -/
def myFinalizer : RValue → FinResult
  | .pyNone => .value (.str "")
  | .bytes b => .value (.str (hexOfBytes b))
  | _ => .notApplicable

/-- Modelled from the spec: rendering a parsed body with a registered
finalizer (sections 4.3 and 6).  Every value is passed to the finalizer
immediately before being written: a replacement is written instead, the
not-applicable signal falls back to the default stringification, and a hard
failure aborts the render. -/
def renderNodesFin (fin : RValue → FinResult) (ctx : List (String × RValue)) :
    List Node → Except String String
  | [] => .ok ""
  | .lit s :: rest =>
    match renderNodesFin fin ctx rest with
    | .ok t => .ok (s ++ t)
    | .error e => .error e
  | .var n :: rest =>
    let v := (List.lookup n ctx).getD .undef
    match fin v with
    | .raise e => .error e
    | .value w =>
      (match renderNodesFin fin ctx rest with
       | .ok t => .ok (w.stringify ++ t)
       | .error e => .error e)
    | .notApplicable =>
      (match renderNodesFin fin ctx rest with
       | .ok t => .ok (v.stringify ++ t)
       | .error e => .error e)

/-! ## Syntax configuration -/

/-- The syntax configuration surface of `Environment.__init__`
(`python/minijinja/__init__.py` lines 38-45 and 84-91): six delimiter
strings and the two optional line prefixes. -/
structure SyntaxConfig where
  block_start_string : String
  block_end_string : String
  variable_start_string : String
  variable_end_string : String
  comment_start_string : String
  comment_end_string : String
  line_statement_prefix : Option String
  line_comment_prefix : Option String
deriving DecidableEq

/-- The default delimiters of `Environment.__init__`. -/
def defaultSyntax : SyntaxConfig where
  block_start_string := "\x7b%"
  block_end_string := "%\x7d"
  variable_start_string := "\x7b\x7b"
  variable_end_string := "\x7d\x7d"
  comment_start_string := "\x7b#"
  comment_end_string := "#\x7d"
  line_statement_prefix := none
  line_comment_prefix := none

/-- Structural prefix test on strings (character-list based, so it reduces
in the kernel). -/
def strIsPfx (a b : String) : Bool :=
  List.isPrefixOf a.data b.data

/-- Two delimiter strings conflict when one is a prefix of the other
(ambiguous tokenization). -/
def delimConflict (a b : String) : Bool :=
  strIsPfx a b || strIsPfx b a

/-- Modelled from the spec: the engine core's validation of a syntax
configuration (section 4.2, the validator itself lives in the Rust core,
not under the repository sources): no two distinct start-delimiter roles may
share a prefix that creates ambiguous tokenization. -/
def validSyntax (c : SyntaxConfig) : Bool :=
  !(delimConflict c.block_start_string c.variable_start_string) &&
  !(delimConflict c.block_start_string c.comment_start_string) &&
  !(delimConflict c.variable_start_string c.comment_start_string)

/-- Modelled from the spec and the code's own caveat: assigning one syntax
attribute on the low-level environment validates the resulting whole
configuration immediately (`__init__.py` line 82-83: if one of the values is
set to a conflicting set "it will immediately error out").  A rejected
assignment is not applied, but assignments already made stay applied: the
error carries the configuration as it stands at the failure. -/
def trySet (c : SyntaxConfig) (upd : SyntaxConfig → SyntaxConfig) :
    Except SyntaxConfig SyntaxConfig :=
  let c2 := upd c
  if validSyntax c2 then .ok c2 else .error c

/-- The field-by-field syntax assignment sequence of `Environment.__init__`
lines 84-91, applied to a current configuration `c` with target values `t`:
each of the eight attributes is assigned in source order, each assignment
individually validated by `trySet`. -/
def applyInitSyntax (c t : SyntaxConfig) : Except SyntaxConfig SyntaxConfig := do
  let c ← trySet c (fun x => { x with block_start_string := t.block_start_string })
  let c ← trySet c (fun x => { x with block_end_string := t.block_end_string })
  let c ← trySet c (fun x => { x with variable_start_string := t.variable_start_string })
  let c ← trySet c (fun x => { x with variable_end_string := t.variable_end_string })
  let c ← trySet c (fun x => { x with comment_start_string := t.comment_start_string })
  let c ← trySet c (fun x => { x with comment_end_string := t.comment_end_string })
  let c ← trySet c (fun x => { x with line_statement_prefix := SyntaxConfig.line_statement_prefix t })
  let c ← trySet c (fun x => { x with line_comment_prefix := SyntaxConfig.line_comment_prefix t })
  return c

/-! ## Environment construction: loader versus templates -/

/-- Python `dict(templates).get`: later duplicate keys win when building the
dict, `get` returns `None` for a missing key. -/
def pyDictGet (ts : List (String × String)) (n : String) : Option String :=
  List.lookup n ts.reverse

/-- Is a Python value truthy in `if templates:`?  `None` and an empty
mapping are falsy; a non-empty mapping is truthy. -/
def templatesTruthy : Option (List (String × String)) → Bool
  | none => false
  | some ts => !ts.isEmpty

/-- The loader-installation logic of `Environment.__init__`
(`python/minijinja/__init__.py` lines 48-53, identically
`python/minijinja_py/__init__.py` lines 22-27): with a loader given, a
truthy `templates` raises TypeError before the loader assignment; otherwise
the loader is installed.  With only `templates` given, `dict(templates).get`
is installed.  The error result carries the TypeError message and, by
construction, no loader has been installed. -/
def envInitLoader (loader : Option (String → Option String))
    (templates : Option (List (String × String))) :
    Except String (Option (String → Option String)) :=
  match loader with
  | some l =>
    if templatesTruthy templates then
      .error "Cannot set loader and templates at the same time"
    else
      .ok (some l)
  | none =>
    match templates with
    | some ts => .ok (some (fun n => pyDictGet ts n))
    | none => .ok none

/-! ## Claim theorems -/

/-- C1: the claim states that a syntax configuration is validated as a whole
before taking effect, a validation failure leaving the previous
configuration fully intact.  Evaluating the code at the failing input
(target delimiters block-start and variable-start both a dollar sign
followed by an opening brace, which whole-config validation rejects up
front): the field-by-field assignment sequence of `Environment.__init__`
errors only at the third assignment, and the configuration at the error
already has the new block-start applied, so it differs from the previous
configuration. -/
theorem c1_syntax_reconfig_not_atomic :
    validSyntax
      { defaultSyntax with
        block_start_string := "$\x7b", variable_start_string := "$\x7b" } = false ∧
    applyInitSyntax defaultSyntax
      { defaultSyntax with
        block_start_string := "$\x7b", variable_start_string := "$\x7b" } =
      .error { defaultSyntax with block_start_string := "$\x7b" } ∧
    { defaultSyntax with block_start_string := "$\x7b" } ≠ defaultSyntax :=
  ⟨by decide, by decide, by decide⟩

/-- C2 counterexample: the claim states that replacing the loader clears all
cached entries so the next resolution invokes the new loader.  Concretely:
after rendering the template named index.html once (caching it) and then
installing a new loader returning different text, the cache still contains
the entry, the next render of that name returns the old cached text rather
than the new loader's text, and the loader-invocation log does not grow —
the newly installed loader is never invoked.  This is exactly the behavior
asserted by `tests/test_basic.py::test_loader` lines 157-159. -/
theorem c2_loader_replacement_counterexample :
    (setLoader
      ((renderTemplate (freshEnv (fun n => some ("Hello from " ++ n)))
        "index.html").2)
      (fun n => some ("NEW " ++ n))).cache =
        [("index.html", "Hello from index.html")] ∧
    (renderTemplate
      (setLoader
        ((renderTemplate (freshEnv (fun n => some ("Hello from " ++ n)))
          "index.html").2)
        (fun n => some ("NEW " ++ n))) "index.html").1 =
      .ok "Hello from index.html" ∧
    (renderTemplate
      (setLoader
        ((renderTemplate (freshEnv (fun n => some ("Hello from " ++ n)))
          "index.html").2)
        (fun n => some ("NEW " ++ n))) "index.html").2.calls =
      ["index.html"] :=
  ⟨by decide, by decide, by decide⟩

/-- C2 amended: replacing the loader leaves previously cached entries
intact; a previously cached name keeps being served from the cache without
invoking the newly installed loader, and only a cache invalidation such as
`reload()` makes the next resolution invoke the installed loader again. -/
theorem c2_loader_replacement_keeps_cache (e : Environment)
    (l : String → Option String) (n src : String)
    (h1 : List.lookup n e.cache = some src)
    (h2 : e.reload_before_render = false) :
    (renderTemplate (setLoader e l) n).1 = .ok src ∧
    (renderTemplate (setLoader e l) n).2.calls = e.calls ∧
    (renderTemplate (envReload (setLoader e l)) n).2.calls = e.calls ++ [n] := by
  refine ⟨?_, ?_, ?_⟩ <;>
    simp only [renderTemplate, setLoader, envReload, h1, h2, if_false,
      Bool.false_eq_true, List.lookup_nil]
  cases h : l n <;> simp [h]

/-- C2 witness: the amended theorem applied at the concrete state of
`test_loader` right after the first render. -/
theorem c2_loader_replacement_keeps_cache_witness :
    List.lookup "index.html"
      (Environment.mk (fun n => some ("Hello from " ++ n))
        [("index.html", "Hello from index.html")] ["index.html"] false).cache =
      some "Hello from index.html" ∧
    (Environment.mk (fun n => some ("Hello from " ++ n))
      [("index.html", "Hello from index.html")] ["index.html"]
      false).reload_before_render = false ∧
    ((renderTemplate
      (setLoader
        (Environment.mk (fun n => some ("Hello from " ++ n))
          [("index.html", "Hello from index.html")] ["index.html"] false)
        (fun n => some ("NEW " ++ n))) "index.html").1 =
          .ok "Hello from index.html" ∧
      (renderTemplate
        (setLoader
          (Environment.mk (fun n => some ("Hello from " ++ n))
            [("index.html", "Hello from index.html")] ["index.html"] false)
          (fun n => some ("NEW " ++ n))) "index.html").2.calls =
            ["index.html"] ∧
      (renderTemplate
        (envReload (setLoader
          (Environment.mk (fun n => some ("Hello from " ++ n))
            [("index.html", "Hello from index.html")] ["index.html"] false)
          (fun n => some ("NEW " ++ n)))) "index.html").2.calls =
            ["index.html"] ++ ["index.html"]) :=
  ⟨by decide, rfl,
    c2_loader_replacement_keeps_cache _ _ "index.html" "Hello from index.html"
      (by decide) rfl⟩

/-- C3: resolving the same name twice on a fresh environment invokes the
loader exactly once (the second resolution is a cache hit returning the same
result), and after `reload()` a further resolution of that name invokes the
loader again. -/
theorem c3_cache_hit_then_reload (l : String → Option String) (n src : String)
    (h : l n = some src) :
    (renderTemplate (freshEnv l) n).1 = .ok src ∧
    (renderTemplate (freshEnv l) n).2.calls = [n] ∧
    (renderTemplate ((renderTemplate (freshEnv l) n).2) n).1 = .ok src ∧
    (renderTemplate ((renderTemplate (freshEnv l) n).2) n).2.calls = [n] ∧
    (renderTemplate
      (envReload ((renderTemplate ((renderTemplate (freshEnv l) n).2) n).2))
      n).2.calls = [n, n] := by
  have step1 : renderTemplate (freshEnv l) n =
      (.ok src, Environment.mk l [(n, src)] [n] false) := by
    simp [renderTemplate, freshEnv, h]
  have step2 : renderTemplate (Environment.mk l [(n, src)] [n] false) n =
      (.ok src, Environment.mk l [(n, src)] [n] false) := by
    simp [renderTemplate, List.lookup]
  have step3 : (renderTemplate
      (envReload (Environment.mk l [(n, src)] [n] false)) n).2.calls =
      [n, n] := by
    simp [renderTemplate, envReload, h]
  exact ⟨by rw [step1], by rw [step1], by rw [step1, step2],
    by rw [step1, step2], by rw [step1, step2]; exact step3⟩

/-- C3 witness: the theorem applied to the loader of `test_loader` and the
name index.html. -/
theorem c3_cache_hit_then_reload_witness :
    (fun n => some ("Hello from " ++ n)) "index.html" =
      some "Hello from index.html" ∧
    ((renderTemplate (freshEnv (fun n => some ("Hello from " ++ n)))
      "index.html").1 = .ok "Hello from index.html" ∧
    (renderTemplate (freshEnv (fun n => some ("Hello from " ++ n)))
      "index.html").2.calls = ["index.html"] ∧
    (renderTemplate ((renderTemplate (freshEnv
      (fun n => some ("Hello from " ++ n))) "index.html").2)
      "index.html").1 = .ok "Hello from index.html" ∧
    (renderTemplate ((renderTemplate (freshEnv
      (fun n => some ("Hello from " ++ n))) "index.html").2)
      "index.html").2.calls = ["index.html"] ∧
    (renderTemplate (envReload ((renderTemplate ((renderTemplate (freshEnv
      (fun n => some ("Hello from " ++ n))) "index.html").2)
      "index.html").2)) "index.html").2.calls =
      ["index.html", "index.html"]) :=
  ⟨by decide,
    c3_cache_hit_then_reload (fun n => some ("Hello from " ++ n))
      "index.html" "Hello from index.html" (by decide)⟩

/-- C4: a failing autoescape callback does not abort the render: the render
stays on the success path with the output computed under the mode none (the
same output as with no callback configured), and the callback's failure is
delivered on the out-of-band diagnostic channel. -/
theorem c4_autoescape_failure_best_effort
    (f : String → Except String AutoMode) (name e : String)
    (ctx : List (String × PyValue)) (body : List Node)
    (h : f name = .error e) :
    renderWithAutoEscape (some f) name ctx body =
      (.ok (renderNodes .noEscape ctx body), [e]) ∧
    (renderWithAutoEscape (some f) name ctx body).1 =
      (renderWithAutoEscape none name ctx body).1 := by
  simp [renderWithAutoEscape, decideAutoEscape, h]

/-- C4 witness: the scenario of `test_autoescape`: the callback asserts the
template name is foo.html, so it fails on invalid.html; the render still
completes and produces the unescaped output. -/
theorem c4_autoescape_failure_best_effort_witness :
    (fun nm => if nm = "foo.html" then Except.ok AutoMode.html
      else Except.error "AssertionError") "invalid.html" =
        .error "AssertionError" ∧
    (renderWithAutoEscape
      (some (fun nm => if nm = "foo.html" then Except.ok AutoMode.html
        else Except.error "AssertionError"))
      "invalid.html" [("foo", .plain "<x>")] [.lit "Hello ", .var "foo"] =
        (.ok (renderNodes .noEscape [("foo", .plain "<x>")]
          [.lit "Hello ", .var "foo"]), ["AssertionError"]) ∧
      (renderWithAutoEscape
        (some (fun nm => if nm = "foo.html" then Except.ok AutoMode.html
          else Except.error "AssertionError"))
        "invalid.html" [("foo", .plain "<x>")]
        [.lit "Hello ", .var "foo"]).1 =
      (renderWithAutoEscape none "invalid.html" [("foo", .plain "<x>")]
        [.lit "Hello ", .var "foo"]).1) :=
  ⟨by decide,
    c4_autoescape_failure_best_effort _ "invalid.html" "AssertionError"
      [("foo", .plain "<x>")] [.lit "Hello ", .var "foo"] (by decide)⟩

/-- C5: the diagnostic for evaluating the expression consisting of a one and
a plus sign has kind SyntaxError and line 1; its short message contains the
words unexpected end of input but not the excerpt line marker, while the
full string rendering of the error does contain the excerpt with the
greater-than-style line marker. -/
theorem c5_one_plus_syntax_error :
    (make_error syntaxErrorOnePlus).kind = "SyntaxError" ∧
    (make_error syntaxErrorOnePlus).line = some 1 ∧
    strContains (make_error syntaxErrorOnePlus).message
      "unexpected end of input" = true ∧
    strContains (make_error syntaxErrorOnePlus).message "1 > 1 +" = false ∧
    strContains (make_error syntaxErrorOnePlus).str "1 > 1 +" = true :=
  ⟨rfl, rfl, by decide, by decide, by decide⟩

/-- C6: a value marked safe bypasses escaping: escaping a safe value returns
it unchanged with its string content intact, emitting it under the active
HTML mode yields it verbatim, and in one render a safe-marked value stays
verbatim while an unmarked string is escaped (the scenario of
`test_honor_safe`). -/
theorem c6_safe_bypasses_escaping (s : String) :
    escape (safe s) = safe s ∧
    (escape (safe s)).strOf = s ∧
    emitValue .html (safe s) = s ∧
    renderNodes .html [("x", safe "<foo>"), ("y", .plain "<bar>")]
      [.var "x", .lit " ", .var "y"] = "<foo> &lt;bar&gt;" :=
  ⟨rfl, rfl, rfl, by decide⟩

/-- C7: a finalizer returning the not-applicable signal leaves the emitted
value unmodified (default stringification); a finalizer returning a
replacement emits the replacement; concretely, the finalizer of
`test_finalizer` renders a missing variable and None to empty brackets,
passes a plain string through, and turns bytes into their hex string. -/
theorem c7_finalizer_dispatch :
    (∀ (fin : RValue → FinResult) (ctx : List (String × RValue))
      (n : String) (v : RValue),
      List.lookup n ctx = some v → fin v = .notApplicable →
      renderNodesFin fin ctx [.var n] = .ok v.stringify) ∧
    (∀ (fin : RValue → FinResult) (ctx : List (String × RValue))
      (n : String) (v w : RValue),
      List.lookup n ctx = some v → fin v = .value w →
      renderNodesFin fin ctx [.var n] = .ok w.stringify) ∧
    renderNodesFin myFinalizer [] [.lit "[", .var "foo", .lit "]"] =
      .ok "[]" ∧
    renderNodesFin myFinalizer [("foo", .pyNone)]
      [.lit "[", .var "foo", .lit "]"] = .ok "[]" ∧
    renderNodesFin myFinalizer [("foo", .str "test")]
      [.lit "[", .var "foo", .lit "]"] = .ok "[test]" ∧
    renderNodesFin myFinalizer [("foo", .bytes [116, 101, 115, 116])]
      [.lit "[", .var "foo", .lit "]"] = .ok "[74657374]" := by
  refine ⟨?_, ?_, by decide, by decide, by decide, by decide⟩
  · intro fin ctx n v h1 h2
    simp [renderNodesFin, h1, h2]
  · intro fin ctx n v w h1 h2
    simp [renderNodesFin, h1, h2]

/-- C7 witness: the not-applicable branch of the theorem applied at the
finalizer of `test_finalizer` and a plain string value. -/
theorem c7_finalizer_dispatch_witness :
    List.lookup "foo" [("foo", RValue.str "test")] =
      some (RValue.str "test") ∧
    myFinalizer (RValue.str "test") = .notApplicable ∧
    renderNodesFin myFinalizer [("foo", RValue.str "test")] [.var "foo"] =
      .ok "test" :=
  ⟨by decide, by decide,
    c7_finalizer_dispatch.1 myFinalizer [("foo", RValue.str "test")] "foo"
      (RValue.str "test") (by decide) (by decide)⟩

/-- C8: a `TemplateError` constructed without attached info has kind
Unknown, all positional properties None, and its string rendering is its
short message; with info attached (as `make_error` does) every property is
read from the info object and the string rendering is the full
description. -/
theorem c8_template_error_properties (msg : String) (info : ErrorInfo) :
    (TemplateError.new msg).kind = "Unknown" ∧
    (TemplateError.new msg).name = none ∧
    (TemplateError.new msg).detail = none ∧
    (TemplateError.new msg).line = none ∧
    (TemplateError.new msg).range = none ∧
    (TemplateError.new msg).templateSource = none ∧
    (TemplateError.new msg).str = msg ∧
    (make_error info).kind = info.kind ∧
    (make_error info).name = info.name ∧
    (make_error info).detail = info.detail ∧
    (make_error info).line = info.line ∧
    (make_error info).range = info.range ∧
    (make_error info).templateSource = info.template_source ∧
    (make_error info).message = info.description ∧
    (make_error info).str = info.full_description :=
  ⟨rfl, rfl, rfl, rfl, rfl, rfl, rfl, rfl, rfl, rfl, rfl, rfl, rfl, rfl, rfl⟩

/-- C9: constructing an environment with both a loader and a non-empty
templates mapping raises TypeError without installing any loader; with only
a templates mapping the getter of the dict built from it is installed; with
a loader and an empty templates mapping no error is raised and the given
loader is installed. -/
theorem c9_env_init_loader (l : String → Option String)
    (ts : List (String × String)) :
    (ts ≠ [] → envInitLoader (some l) (some ts) =
      .error "Cannot set loader and templates at the same time") ∧
    envInitLoader none (some ts) = .ok (some (fun n => pyDictGet ts n)) ∧
    envInitLoader (some l) (some []) = .ok (some l) := by
  refine ⟨?_, rfl, rfl⟩
  intro h
  cases ts with
  | nil => exact absurd rfl h
  | cons a t => rfl

/-- C9 witness: the first part of the theorem applied at a one-entry
templates mapping. -/
theorem c9_env_init_loader_witness :
    [("a", "b")] ≠ ([] : List (String × String)) ∧
    envInitLoader (some (fun _ => (none : Option String)))
      (some [("a", "b")]) =
      .error "Cannot set loader and templates at the same time" :=
  ⟨by decide,
    (c9_env_init_loader (fun _ => (none : Option String)) [("a", "b")]).1
      (by decide)⟩

/-- C10 counterexample: the fallback escape is not idempotent on every
value: for an object whose `__html__` returns the plain string consisting of
an open angle bracket, letter b and close angle bracket, escaping once
yields that plain string, and escaping again escapes it, so the results
differ. -/
theorem c10_escape_not_idempotent :
    escape (escape (PyValue.withHtml (PyValue.plain "<b>"))) ≠
      escape (PyValue.withHtml (PyValue.plain "<b>")) := by decide

/-- C10 amended: the fallback escape returns the result of the value's
`__html__` whenever the value defines one, and escape is idempotent on
every value without a custom `__html__` and on every value whose `__html__`
returns a `Markup`. -/
theorem c10_escape_idempotent_on_good (v r : PyValue)
    (h : goodHtml v = true) :
    escape (.withHtml r) = r ∧
    escape (escape v) = escape v := by
  refine ⟨rfl, ?_⟩
  cases v with
  | plain s => rfl
  | markup s => rfl
  | withHtml r2 =>
    cases r2 with
    | plain s => simp [goodHtml] at h
    | markup s => rfl
    | withHtml r3 => simp [goodHtml] at h

/-- C10 witness: the amended theorem applied at a value whose `__html__`
returns a `Markup`. -/
theorem c10_escape_idempotent_on_good_witness :
    goodHtml (PyValue.withHtml (PyValue.markup "x")) = true ∧
    (escape (.withHtml (PyValue.plain "q")) = PyValue.plain "q" ∧
      escape (escape (PyValue.withHtml (PyValue.markup "x"))) =
        escape (PyValue.withHtml (PyValue.markup "x"))) :=
  ⟨by decide,
    c10_escape_idempotent_on_good (PyValue.withHtml (PyValue.markup "x"))
      (PyValue.plain "q") (by decide)⟩

end Minijinja
